import Mathlib

/-!
Verification of the errbot Skype backend adapter (src/skype.py).

The native Skype4Py objects are modelled as plain Lean structures carrying the
fields the adapter reads.  Side-effecting calls that the adapter issues on the
native client (Join, Leave, Disband, SetBuddyStatusPendingAuthorization, ...)
are modelled as explicit call lists returned by the corresponding operations.
Python exceptions are modelled with Except; in-place mutation of a Python
object is modelled by returning the final state of the object explicitly.
-/

namespace ErrbotSkype

/-- Model of a `Skype4Py.user.User` native object: the fields the adapter reads. -/
structure NativeUser where
  Handle : String
  FullName : String
  DisplayName : String
  ReceivedAuthRequest : String
deriving DecidableEq

/-- Model of a `Skype4Py.chat.Chat` native object.  `Type_` stands for the native
`Type` attribute (a Lean keyword), which the adapter deliberately never reads
because accessing it hangs. -/
structure Chat where
  Name : String
  Type_ : String
  Topic : String
  Status : String
  Members : List NativeUser
deriving DecidableEq

/-- Model of a `Skype4Py.chat.ChatMessage` native object.  `Type_` stands for the
native `Type` attribute, used by the handler only for logging. -/
structure ChatMessage where
  Body : String
  Status : String
  Type_ : String
  Sender : NativeUser
  Chat : Chat
deriving DecidableEq

/-- SkypeUser: wraps a native user handle (class SkypeUser in skype.py). -/
structure SkypeUser where
  _user : NativeUser
deriving DecidableEq

/-- Model of `SkypeUser.__unicode__` / `__str__`: returns the wrapped Handle. -/
def SkypeUser.toStr (u : SkypeUser) : String := u._user.Handle

/-- Model of the `SkypeUser.user` property. -/
def SkypeUser.user (u : SkypeUser) : NativeUser := u._user

/-- Model of the `SkypeUser.fullname` property. -/
def SkypeUser.fullname (u : SkypeUser) : String := u._user.FullName

/-- Model of the `SkypeUser.nick` property. -/
def SkypeUser.nick (u : SkypeUser) : String := u._user.Handle

/-- In skype.py, `handle = nick` (alias). -/
def SkypeUser.handle (u : SkypeUser) : String := u.nick

/-- In skype.py, `aclattr = nick` (alias). -/
def SkypeUser.aclattr (u : SkypeUser) : String := u.nick

/-- In skype.py, `person = nick` (alias). -/
def SkypeUser.person (u : SkypeUser) : String := u.nick

/-- Model of the `SkypeUser.displayname` property. -/
def SkypeUser.displayname (u : SkypeUser) : String := u._user.DisplayName

/-- SkypeChatroom: wraps a native chat handle (class SkypeChatroom in skype.py). -/
structure SkypeChatroom where
  _chat : Chat
deriving DecidableEq

/-- SkypeChatroomOccupant: a user inside a groupchat (class SkypeChatroomOccupant). -/
structure SkypeChatroomOccupant where
  _user : NativeUser
  _room : SkypeChatroom
deriving DecidableEq

/-- Model of the `SkypeChatroomOccupant.room` property. -/
def SkypeChatroomOccupant.room (o : SkypeChatroomOccupant) : SkypeChatroom := o._room

/-- The calls the room adapter can issue on the wrapped native chat object. -/
inductive ChatCall where
  | Join
  | Leave
  | Disband
  | SetTopic (t : String)
  | AddMembers (users : List String)
deriving DecidableEq

/-- Model of `SkypeChatroom.join(username, password)`: forwards to the native
`Join()` method of the chat; username and password are accepted but ignored. -/
def SkypeChatroom.join (_r : SkypeChatroom) (_username _password : Option String) :
    List ChatCall :=
  [ChatCall.Join]

/-- Model of `SkypeChatroom.leave(reason)`: forwards to the `Leave()` method
of the native chat; the reason is accepted but ignored. -/
def SkypeChatroom.leave (_r : SkypeChatroom) (_reason : Option String) : List ChatCall :=
  [ChatCall.Leave]

/-- Model of `SkypeChatroom.create()`: a dummy method, issues no native call. -/
def SkypeChatroom.create (_r : SkypeChatroom) : List ChatCall := []

/-- Model of `SkypeChatroom.destroy()`: forwards to the native `Disband()` call. -/
def SkypeChatroom.destroy (_r : SkypeChatroom) : List ChatCall :=
  [ChatCall.Disband]

/-- Model of the `SkypeChatroom.exists` property: returns True unconditionally. -/
def SkypeChatroom.exists (_r : SkypeChatroom) : Bool := true

/-- Model of the `SkypeChatroom.joined` property. -/
def SkypeChatroom.joined (r : SkypeChatroom) : Bool := r._chat.Status != "UNSUBSCRIBED"

/-- Model of the `SkypeChatroom.topic` getter: returns the Topic of the native chat. -/
def SkypeChatroom.topic (r : SkypeChatroom) : String := r._chat.Topic

/-- Model of the `SkypeChatroom.topic` setter: assigns the Topic of the native chat.
In-place mutation is modelled by returning the new state of the room. -/
def SkypeChatroom.setTopic (r : SkypeChatroom) (topic : String) : SkypeChatroom :=
  { r with _chat := { r._chat with Topic := topic } }

/-- Model of the `SkypeChatroom.occupants` property: one occupant per member of
the member list of the native chat. -/
def SkypeChatroom.occupants (r : SkypeChatroom) : List SkypeChatroomOccupant :=
  r._chat.Members.map (fun member => { _user := member, _room := r })

/-- Abstract room operations, used to state that no sequence of operations on a
SkypeChatroom changes what `exists` returns. -/
inductive RoomOp where
  | join (username password : Option String)
  | leave (reason : Option String)
  | create
  | destroy
  | setTopic (t : String)
deriving DecidableEq

/-- Applies a room operation to the state of the room adapter, returning the new state
and the native calls issued.  Only the topic setter changes the adapter state. -/
def SkypeChatroom.applyOp (r : SkypeChatroom) (op : RoomOp) : SkypeChatroom × List ChatCall :=
  match op with
  | RoomOp.join u p => (r, r.join u p)
  | RoomOp.leave reason => (r, r.leave reason)
  | RoomOp.create => (r, r.create)
  | RoomOp.destroy => (r, r.destroy)
  | RoomOp.setTopic t => (r.setTopic t, [ChatCall.SetTopic t])

/-- Applies a sequence of room operations, threading the room state. -/
def SkypeChatroom.applyOps (r : SkypeChatroom) (ops : List RoomOp) : SkypeChatroom :=
  ops.foldl (fun s op => (s.applyOp op).1) r

/-- The sender/recipient of an errbot Message as built by this backend: either a
plain user, a chatroom occupant, or a chatroom. -/
inductive MsgEntity where
  | user (u : SkypeUser)
  | occupant (o : SkypeChatroomOccupant)
  | room (r : SkypeChatroom)
deriving DecidableEq

/-- Model of an errbot `Message` as used by this backend. -/
structure Message where
  body : Option String
  type_ : String
  frm : MsgEntity
  to_ : MsgEntity
deriving DecidableEq

/-- Model of `SkypeBackend._make_message`: builds an errbot Message from a native
chat message.  A chat is considered a groupchat exactly when it has more than 2
members (the native chat Type attribute is unusable and never consulted). -/
def _make_message (bot_identifier : SkypeUser) (skype_msg : ChatMessage) : Message :=
  if skype_msg.Chat.Members.length > 2 then
    let skypechat : SkypeChatroom := { _chat := skype_msg.Chat }
    { body := some skype_msg.Body
      type_ := "groupchat"
      frm := MsgEntity.occupant { _user := skype_msg.Sender, _room := skypechat }
      to_ := MsgEntity.room skypechat }
  else
    { body := some skype_msg.Body
      type_ := "chat"
      frm := MsgEntity.user { _user := skype_msg.Sender }
      to_ := MsgEntity.user bot_identifier }

/-- Python exceptions as seen by the handler: the one caught type
(Skype4Py.SkypeError) versus everything else. -/
inductive PyExc where
  | skypeError
  | other (name : String)
deriving DecidableEq

/-- Model of `SkypeBackend._message_event_handler`.  The three calls it makes
that may raise (building the message, the framework callback, MarkAsSeen) are
passed as fallible functions.  The returned value records the message handed to
`callback_message`, if any; a raised exception is an `Except.error`.  Only a
SkypeError raised by MarkAsSeen is caught and ignored. -/
def _message_event_handler
    (make_message : ChatMessage → Except PyExc Message)
    (callback_message : Message → Except PyExc Unit)
    (markAsSeen : ChatMessage → Except PyExc Unit)
    (skype_msg : ChatMessage) : Except PyExc (Option Message) :=
  let delivered : Except PyExc (Option Message) :=
    if skype_msg.Status = "RECEIVED" then
      match make_message skype_msg with
      | Except.error e => Except.error e
      | Except.ok msg =>
        match callback_message msg with
        | Except.error e => Except.error e
        | Except.ok _ => Except.ok (some msg)
    else
      Except.ok none
  match delivered with
  | Except.error e => Except.error e
  | Except.ok d =>
    match markAsSeen skype_msg with
    | Except.ok _ => Except.ok d
    | Except.error PyExc.skypeError => Except.ok d
    | Except.error e => Except.error e

/-- The call the contact-request handler can issue on the native user object. -/
inductive UserCall where
  | SetBuddyStatusPendingAuthorization
deriving DecidableEq

/-- Model of the `SKYPE_ACCEPT_CONTACT_REQUESTS` initialisation in
`SkypeBackend.__init__`: `getattr` of the attribute with default `True`,
with `none` standing for the attribute being absent from the config. -/
def initAcceptContactRequests (configured : Option Bool) : Bool :=
  configured.getD true

/-- Model of `SkypeBackend._process_contact_request`: returns the native calls
issued on the requesting user. -/
def _process_contact_request (accept_contact_requests : Bool) (_user : NativeUser) :
    List UserCall :=
  if accept_contact_requests then [UserCall.SetBuddyStatusPendingAuthorization] else []

/-- Model of the native `Skype4Py.Skype()` client state read by the backend. -/
structure Skype where
  Friends : List NativeUser
  Chats : List Chat
  SearchForUsers : String → List NativeUser

/-- Model of `SkypeBackend.query_room`: returns a SkypeChatroom when exactly one
chat in the chat list of the client has the given Name, otherwise raises
RoomDoesNotExistError (modelled as the error payload the code constructs). -/
def query_room (sk : Skype) (room : String) : Except (String × String) SkypeChatroom :=
  if h : (sk.Chats.filter (fun c => c.Name == room)).length = 1 then
    Except.ok { _chat := (sk.Chats.filter (fun c => c.Name == room)).get ⟨0, by omega⟩ }
  else
    Except.error ("Couldn\u0027t find a room matching %s", room)

/-- The result of a successful `build_identifier`: a user or a chatroom. -/
inductive BuiltIdentifier where
  | user (u : SkypeUser)
  | room (r : SkypeChatroom)
deriving DecidableEq

/-- The native-client queries `build_identifier` can perform. -/
inductive Query where
  | friends
  | chats
  | search (t : String)
deriving DecidableEq

/-- Model of the undecorated body of `SkypeBackend.build_identifier`: buddy list
first, then chat list (via query_room), then the user directory; raises
ValueError when all three fail.  Also returns the list of queries performed. -/
def build_identifier_raw (sk : Skype) (text_representation : String) :
    Except String BuiltIdentifier × List Query :=
  let matches1 := sk.Friends.filter (fun f => f.Handle == text_representation)
  if h : matches1.length = 1 then
    (Except.ok (BuiltIdentifier.user { _user := matches1.get ⟨0, by omega⟩ }),
     [Query.friends])
  else
    match query_room sk text_representation with
    | Except.ok r => (Except.ok (BuiltIdentifier.room r), [Query.friends, Query.chats])
    | Except.error _ =>
      let matches2 := (sk.SearchForUsers text_representation).filter
        (fun u => u.Handle == text_representation)
      if h2 : matches2.length = 1 then
        (Except.ok (BuiltIdentifier.user { _user := matches2.get ⟨0, by omega⟩ }),
         [Query.friends, Query.chats, Query.search text_representation])
      else
        (Except.error "Unable to build an identifier from %s",
         [Query.friends, Query.chats, Query.search text_representation])

/-- Model of `build_identifier` under its `lru_cache(maxsize=None)` decorator:
an unbounded cache keyed on the argument.  A hit returns the cached object with
no queries; a miss runs the body and caches the result on success (the Python
lru_cache does not cache a raised exception). -/
def build_identifier (sk : Skype) (cache : List (String × BuiltIdentifier))
    (text_representation : String) :
    Except String BuiltIdentifier × List (String × BuiltIdentifier) × List Query :=
  match cache.lookup text_representation with
  | some v => (Except.ok v, cache, [])
  | none =>
    match build_identifier_raw sk text_representation with
    | (Except.ok v, qs) => (Except.ok v, (text_representation, v) :: cache, qs)
    | (Except.error e, qs) => (Except.error e, cache, qs)

/-- Model of `SkypeBackend.build_reply`: mutates the incoming message in place
(to := original frm, frm := bot identifier, body := text, type := "chat" when
private) and returns it.  The first component is the returned object, the second
the final state of the argument object; in Python they are the same object. -/
def build_reply (bot_identifier : SkypeUser) (mess : Message) (text : Option String)
    (priv : Bool) : Message × Message :=
  let m1 := { mess with to_ := mess.frm }
  let m2 := { m1 with frm := MsgEntity.user bot_identifier }
  let m3 := { m2 with body := text }
  let m4 := if priv then { m3 with type_ := "chat" } else m3
  (m4, m4)

/-! Concrete sample data used by witness theorems. -/

/-- A concrete native user for witnesses. -/
def sampleUser (h : String) : NativeUser :=
  { Handle := h, FullName := h ++ " Full", DisplayName := h ++ " Disp",
    ReceivedAuthRequest := "hello" }

/-- A concrete native chat for witnesses. -/
def sampleChat (name : String) (members : List NativeUser) : Chat :=
  { Name := name, Type_ := "MULTICHAT", Topic := "old topic", Status := "DIALOG",
    Members := members }

/-! Theorems settling the claims. -/

/-- C6: every SkypeUser identity accessor returns the field of the wrapped
native user unchanged: nick, handle, person, aclattr and the string conversion
all return Handle; fullname returns FullName; displayname returns DisplayName. -/
theorem skypeUser_accessors (u : SkypeUser) :
    u.nick = u._user.Handle ∧ u.handle = u._user.Handle ∧
    u.person = u._user.Handle ∧ u.aclattr = u._user.Handle ∧
    u.toStr = u._user.Handle ∧ u.fullname = u._user.FullName ∧
    u.displayname = u._user.DisplayName :=
  ⟨rfl, rfl, rfl, rfl, rfl, rfl, rfl⟩

/-- C10: for every SkypeChatroom and every sequence of room operations applied
to it (destroy included), the exists property still returns true; moreover it
is a constant function of the room, consulting no state of the wrapped chat. -/
theorem skypeChatroom_exists_always_true (r : SkypeChatroom) (ops : List RoomOp) :
    (r.applyOps ops).exists = true ∧ ∀ r' : SkypeChatroom, r'.exists = r.exists := by
  exact ⟨rfl, fun r' => rfl⟩

/-- C9: build_reply mutates its input message in place and returns that same
object: the returned message equals the final state of the argument, its to
field is the original frm of the argument, its frm is the bot identifier, its
body is the given text (none when no text is given), and its type becomes
"chat" exactly when private is true, otherwise the original type is kept. -/
theorem build_reply_in_place (bot : SkypeUser) (mess : Message) (text : Option String)
    (priv : Bool) :
    (build_reply bot mess text priv).1 = (build_reply bot mess text priv).2 ∧
    (build_reply bot mess text priv).1.to_ = mess.frm ∧
    (build_reply bot mess text priv).1.frm = MsgEntity.user bot ∧
    (build_reply bot mess text priv).1.body = text ∧
    (build_reply bot mess text priv).1.type_ = (if priv then "chat" else mess.type_) := by
  unfold build_reply
  cases priv <;> simp

/-- C7: SkypeChatroom operations forward to the wrapped native chat: join issues
the Join() call with username and password ignored, leave issues the Leave()
call with the reason ignored, a topic write followed by a read yields the value
written, and occupants contains one SkypeChatroomOccupant per entry of the
member list of the chat, in the same order, all bound to this room. -/
theorem skypeChatroom_ops_forward (r : SkypeChatroom) :
    (∀ username password : Option String, r.join username password = [ChatCall.Join]) ∧
    (∀ reason : Option String, r.leave reason = [ChatCall.Leave]) ∧
    (∀ t : String, (r.setTopic t).topic = t) ∧
    r.occupants.map (fun o => o._user) = r._chat.Members ∧
    (∀ o ∈ r.occupants, o._room = r) := by
  refine ⟨fun _ _ => rfl, fun _ => rfl, fun _ => rfl, ?_, ?_⟩
  · simp only [SkypeChatroom.occupants, List.map_map]
    exact List.map_id r._chat.Members
  · intro o ho
    simp only [SkypeChatroom.occupants, List.mem_map] at ho
    obtain ⟨m, -, rfl⟩ := ho
    rfl

/-- Witness for C7 at a concrete two-member room. -/
theorem skypeChatroom_ops_forward_witness :
    (SkypeChatroom.mk (sampleChat "r1" [sampleUser "a", sampleUser "b"])).join
        (some "user") (some "pw") = [ChatCall.Join] ∧
    ((SkypeChatroom.mk (sampleChat "r1" [sampleUser "a", sampleUser "b"])).occupants.map
        (fun o => o._user) = [sampleUser "a", sampleUser "b"]) ∧
    (SkypeChatroomOccupant.mk (sampleUser "a")
        (SkypeChatroom.mk (sampleChat "r1" [sampleUser "a", sampleUser "b"])))._room =
      SkypeChatroom.mk (sampleChat "r1" [sampleUser "a", sampleUser "b"]) := by
  obtain ⟨h1, h2, h3, h4, h5⟩ :=
    skypeChatroom_ops_forward (SkypeChatroom.mk (sampleChat "r1" [sampleUser "a", sampleUser "b"]))
  refine ⟨h1 (some "user") (some "pw"), h4, ?_⟩
  exact h5 _ (by simp [SkypeChatroom.occupants, sampleChat])

/-- C4: _process_contact_request issues SetBuddyStatusPendingAuthorization on
the requesting user iff the SKYPE_ACCEPT_CONTACT_REQUESTS flag is true; when
the flag is false no native call is made on the user; and the flag defaults to
true when the attribute is absent from the config. -/
theorem process_contact_request_accepts_iff (flag : Bool) (user : NativeUser) :
    (_process_contact_request flag user = [UserCall.SetBuddyStatusPendingAuthorization] ↔
      flag = true) ∧
    (flag = false → _process_contact_request flag user = []) ∧
    initAcceptContactRequests none = true ∧
    (∀ b, initAcceptContactRequests (some b) = b) := by
  cases flag <;>
    simp [_process_contact_request, initAcceptContactRequests]

/-- Witness for C4 at concrete flag values and a concrete user. -/
theorem process_contact_request_accepts_iff_witness :
    _process_contact_request false (sampleUser "bob") = [] ∧
    _process_contact_request true (sampleUser "bob") =
      [UserCall.SetBuddyStatusPendingAuthorization] :=
  ⟨(process_contact_request_accepts_iff false (sampleUser "bob")).2.1 rfl,
   (process_contact_request_accepts_iff true (sampleUser "bob")).1.mpr rfl⟩

/-- Replaces the Type attribute of the chat carried by a native message, leaving
everything else unchanged; used to state that the classification in
_make_message never consults that attribute. -/
def withChatType (m : ChatMessage) (t : String) : ChatMessage :=
  { m with Chat := { m.Chat with Type_ := t } }

/-- C1: _make_message classifies a message as groupchat iff the member list of
the chat has length strictly greater than 2; with 2 or fewer members it builds a
one-to-one "chat" message addressed to the bot identifier; and the
classification is independent of the Type attribute of the chat. -/
theorem make_message_groupchat_iff (bot : SkypeUser) (msg : ChatMessage) :
    ((_make_message bot msg).type_ = "groupchat" ↔ msg.Chat.Members.length > 2) ∧
    (msg.Chat.Members.length ≤ 2 →
      (_make_message bot msg).type_ = "chat" ∧
      (_make_message bot msg).to_ = MsgEntity.user bot) ∧
    (∀ t t' : String,
      (_make_message bot (withChatType msg t)).type_ =
        (_make_message bot (withChatType msg t')).type_) := by
  unfold _make_message withChatType
  by_cases h : msg.Chat.Members.length > 2
  · refine ⟨by simp [h], fun hle => absurd h (by omega), fun t t' => by simp [h]⟩
  · refine ⟨by simp [h], fun _ => by simp [h], fun t t' => by simp [h]⟩

/-- Witness for C1 at a concrete two-member chat message. -/
theorem make_message_groupchat_iff_witness :
    (_make_message (SkypeUser.mk (sampleUser "bot"))
        (ChatMessage.mk "hi" "RECEIVED" "SAID" (sampleUser "a")
          (sampleChat "c1" [sampleUser "a", sampleUser "bot"]))).type_ = "chat" ∧
    (_make_message (SkypeUser.mk (sampleUser "bot"))
        (ChatMessage.mk "hi" "RECEIVED" "SAID" (sampleUser "a")
          (sampleChat "c1" [sampleUser "a", sampleUser "bot"]))).to_ =
      MsgEntity.user (SkypeUser.mk (sampleUser "bot")) :=
  (make_message_groupchat_iff (SkypeUser.mk (sampleUser "bot"))
      (ChatMessage.mk "hi" "RECEIVED" "SAID" (sampleUser "a")
        (sampleChat "c1" [sampleUser "a", sampleUser "bot"]))).2.1 (by decide)

/-- C2: the message event handler converts the native message and hands it to
callback_message iff the native Status equals "RECEIVED"; for any other status
nothing is delivered, and neither the conversion nor the callback can influence
the outcome because they are never invoked. -/
theorem message_event_handler_received_iff (bot : SkypeUser) (msg : ChatMessage) :
    (_message_event_handler (fun m => Except.ok (_make_message bot m))
        (fun _ => Except.ok ()) (fun _ => Except.ok ()) msg =
      Except.ok (if msg.Status = "RECEIVED" then some (_make_message bot msg) else none)) ∧
    (msg.Status ≠ "RECEIVED" →
      ∀ (mm mm' : ChatMessage → Except PyExc Message)
        (cb cb' : Message → Except PyExc Unit) (mas : ChatMessage → Except PyExc Unit),
        _message_event_handler mm cb mas msg = _message_event_handler mm' cb' mas msg) := by
  constructor
  · unfold _message_event_handler
    by_cases h : msg.Status = "RECEIVED" <;> simp [h]
  · intro h mm mm' cb cb' mas
    unfold _message_event_handler
    simp [h]

/-- Witness for C2 at concrete received and non-received messages. -/
theorem message_event_handler_received_iff_witness :
    _message_event_handler
        (fun m => Except.ok (_make_message (SkypeUser.mk (sampleUser "bot")) m))
        (fun _ => Except.ok ()) (fun _ => Except.ok ())
        (ChatMessage.mk "hi" "SENT" "SAID" (sampleUser "a")
          (sampleChat "c1" [sampleUser "a"])) =
      _message_event_handler (fun _ => Except.error (PyExc.other "boom"))
        (fun _ => Except.error (PyExc.other "boom2")) (fun _ => Except.ok ())
        (ChatMessage.mk "hi" "SENT" "SAID" (sampleUser "a")
          (sampleChat "c1" [sampleUser "a"])) :=
  (message_event_handler_received_iff (SkypeUser.mk (sampleUser "bot"))
      (ChatMessage.mk "hi" "SENT" "SAID" (sampleUser "a")
        (sampleChat "c1" [sampleUser "a"]))).2 (by decide)
    (fun m => Except.ok (_make_message (SkypeUser.mk (sampleUser "bot")) m))
    (fun _ => Except.error (PyExc.other "boom"))
    (fun _ => Except.ok ()) (fun _ => Except.error (PyExc.other "boom2"))
    (fun _ => Except.ok ())

/-- C3: only a SkypeError raised by MarkAsSeen is caught and ignored, with no
effect on the result of the handler; an exception raised while building the
message or by the framework callback propagates, and any non-SkypeError raised
by MarkAsSeen propagates as well. -/
theorem message_event_handler_error_handling
    (mm : ChatMessage → Except PyExc Message)
    (cb : Message → Except PyExc Unit)
    (msg : ChatMessage) :
    (_message_event_handler mm cb (fun _ => Except.error PyExc.skypeError) msg =
      _message_event_handler mm cb (fun _ => Except.ok ()) msg) ∧
    (∀ (mas : ChatMessage → Except PyExc Unit) (e : PyExc),
      msg.Status = "RECEIVED" → mm msg = Except.error e →
      _message_event_handler mm cb mas msg = Except.error e) ∧
    (∀ (mas : ChatMessage → Except PyExc Unit) (e : PyExc) (m : Message),
      msg.Status = "RECEIVED" → mm msg = Except.ok m → cb m = Except.error e →
      _message_event_handler mm cb mas msg = Except.error e) ∧
    (∀ (s : String) (d : Option Message),
      _message_event_handler mm cb (fun _ => Except.ok ()) msg = Except.ok d →
      _message_event_handler mm cb (fun _ => Except.error (PyExc.other s)) msg =
        Except.error (PyExc.other s)) := by
  refine ⟨?_, ?_, ?_, ?_⟩
  · unfold _message_event_handler
    by_cases h : msg.Status = "RECEIVED"
    · cases hmm : mm msg with
      | error e => simp [h, hmm]
      | ok m =>
        cases hcb : cb m with
        | error e => simp [h, hmm, hcb]
        | ok u => simp [h, hmm, hcb]
    · simp [h]
  · intro mas e hst hmm
    unfold _message_event_handler
    simp [hst, hmm]
  · intro mas e m hst hmm hcb
    unfold _message_event_handler
    simp [hst, hmm, hcb]
  · intro s d hok
    unfold _message_event_handler at hok ⊢
    by_cases h : msg.Status = "RECEIVED"
    · cases hmm : mm msg with
      | error e => simp [h, hmm] at hok
      | ok m =>
        cases hcb : cb m with
        | error e => simp [h, hmm, hcb] at hok
        | ok u => simp [h, hmm, hcb]
    · simp [h]

/-- Witness for C3: at a concrete received message, a SkypeError from MarkAsSeen
is swallowed, an error from the message construction propagates, an error from
the callback propagates, and a non-SkypeError from MarkAsSeen propagates. -/
theorem message_event_handler_error_handling_witness :
    (_message_event_handler
        (fun m => Except.ok (_make_message (SkypeUser.mk (sampleUser "bot")) m))
        (fun _ => Except.ok ()) (fun _ => Except.error PyExc.skypeError)
        (ChatMessage.mk "hi" "RECEIVED" "SAID" (sampleUser "a")
          (sampleChat "c1" [sampleUser "a"])) =
      _message_event_handler
        (fun m => Except.ok (_make_message (SkypeUser.mk (sampleUser "bot")) m))
        (fun _ => Except.ok ()) (fun _ => Except.ok ())
        (ChatMessage.mk "hi" "RECEIVED" "SAID" (sampleUser "a")
          (sampleChat "c1" [sampleUser "a"]))) ∧
    (_message_event_handler (fun _ => Except.error (PyExc.other "make boom"))
        (fun _ => Except.ok ()) (fun _ => Except.ok ())
        (ChatMessage.mk "hi" "RECEIVED" "SAID" (sampleUser "a")
          (sampleChat "c1" [sampleUser "a"])) =
      Except.error (PyExc.other "make boom")) ∧
    (_message_event_handler
        (fun m => Except.ok (_make_message (SkypeUser.mk (sampleUser "bot")) m))
        (fun _ => Except.error (PyExc.other "cb boom")) (fun _ => Except.ok ())
        (ChatMessage.mk "hi" "RECEIVED" "SAID" (sampleUser "a")
          (sampleChat "c1" [sampleUser "a"])) =
      Except.error (PyExc.other "cb boom")) ∧
    (_message_event_handler
        (fun m => Except.ok (_make_message (SkypeUser.mk (sampleUser "bot")) m))
        (fun _ => Except.ok ()) (fun _ => Except.error (PyExc.other "mark boom"))
        (ChatMessage.mk "hi" "RECEIVED" "SAID" (sampleUser "a")
          (sampleChat "c1" [sampleUser "a"])) =
      Except.error (PyExc.other "mark boom")) := by
  refine ⟨?_, ?_, ?_, ?_⟩
  · exact (message_event_handler_error_handling
      (fun m => Except.ok (_make_message (SkypeUser.mk (sampleUser "bot")) m))
      (fun _ => Except.ok ())
      (ChatMessage.mk "hi" "RECEIVED" "SAID" (sampleUser "a")
        (sampleChat "c1" [sampleUser "a"]))).1
  · exact (message_event_handler_error_handling
      (fun _ => Except.error (PyExc.other "make boom"))
      (fun _ => Except.ok ())
      (ChatMessage.mk "hi" "RECEIVED" "SAID" (sampleUser "a")
        (sampleChat "c1" [sampleUser "a"]))).2.1 (fun _ => Except.ok ())
      (PyExc.other "make boom") rfl rfl
  · exact (message_event_handler_error_handling
      (fun m => Except.ok (_make_message (SkypeUser.mk (sampleUser "bot")) m))
      (fun _ => Except.error (PyExc.other "cb boom"))
      (ChatMessage.mk "hi" "RECEIVED" "SAID" (sampleUser "a")
        (sampleChat "c1" [sampleUser "a"]))).2.2.1 (fun _ => Except.ok ())
      (PyExc.other "cb boom")
      (_make_message (SkypeUser.mk (sampleUser "bot"))
        (ChatMessage.mk "hi" "RECEIVED" "SAID" (sampleUser "a")
          (sampleChat "c1" [sampleUser "a"]))) rfl rfl rfl
  · exact (message_event_handler_error_handling
      (fun m => Except.ok (_make_message (SkypeUser.mk (sampleUser "bot")) m))
      (fun _ => Except.ok ())
      (ChatMessage.mk "hi" "RECEIVED" "SAID" (sampleUser "a")
        (sampleChat "c1" [sampleUser "a"]))).2.2.2 "mark boom"
      (some (_make_message (SkypeUser.mk (sampleUser "bot"))
        (ChatMessage.mk "hi" "RECEIVED" "SAID" (sampleUser "a")
          (sampleChat "c1" [sampleUser "a"])))) rfl

/-- A concrete native client state with one buddy, used by witnesses. -/
def sampleSkype : Skype :=
  { Friends := [sampleUser "alice"], Chats := [], SearchForUsers := fun _ => [] }

/-- A concrete native client state with an empty buddy list, used by witnesses. -/
def sampleSkypeEmpty : Skype :=
  { Friends := [], Chats := [], SearchForUsers := fun _ => [] }

/-- A concrete native client state with two chats, used by witnesses. -/
def sampleSkypeChats : Skype :=
  { Friends := [], Chats := [sampleChat "room1" [], sampleChat "room2" []],
    SearchForUsers := fun _ => [] }

/-- C8: query_room returns a SkypeChatroom wrapping a chat from the chat list
whose Name equals the requested name iff exactly one chat in the chat list has
that Name; with zero matching chats, and also with two or more, it raises
RoomDoesNotExistError and returns no room. -/
theorem query_room_unique_match (sk : Skype) (room : String) :
    (sk.Chats.countP (fun c => c.Name == room) = 1 →
      ∃ c, query_room sk room = Except.ok { _chat := c } ∧
        c.Name = room ∧ c ∈ sk.Chats) ∧
    (sk.Chats.countP (fun c => c.Name == room) ≠ 1 →
      query_room sk room = Except.error ("Couldn\u0027t find a room matching %s", room)) := by
  constructor
  · intro h1
    have hlen : (sk.Chats.filter (fun c => c.Name == room)).length = 1 := by
      rw [← List.countP_eq_length_filter]
      exact h1
    have hpos : 0 < (sk.Chats.filter (fun c => c.Name == room)).length := by omega
    have hm : (sk.Chats.filter (fun c => c.Name == room)).get ⟨0, hpos⟩ ∈
        sk.Chats.filter (fun c => c.Name == room) := List.get_mem _ _ _
    have hmf := List.mem_filter.mp hm
    refine ⟨(sk.Chats.filter (fun c => c.Name == room)).get ⟨0, hpos⟩, ?_, ?_, hmf.1⟩
    · unfold query_room
      rw [dif_pos hlen]
    · simpa using hmf.2
  · intro h1
    have hlen : (sk.Chats.filter (fun c => c.Name == room)).length ≠ 1 := by
      rw [← List.countP_eq_length_filter]
      exact h1
    unfold query_room
    rw [dif_neg hlen]

/-- Witness for C8: with exactly one chat named room1 the query succeeds, and
with no chat named roomX it raises RoomDoesNotExistError. -/
theorem query_room_unique_match_witness :
    (∃ c, query_room sampleSkypeChats "room1" = Except.ok { _chat := c } ∧
      c.Name = "room1" ∧ c ∈ sampleSkypeChats.Chats) ∧
    query_room sampleSkypeChats "roomX" =
      Except.error ("Couldn\u0027t find a room matching %s", "roomX") :=
  ⟨(query_room_unique_match sampleSkypeChats "room1").1 (by decide),
   (query_room_unique_match sampleSkypeChats "roomX").2 (by decide)⟩

/-- C5: build_identifier is memoized with an unbounded cache: once a call with
some argument has produced a result, any later call with the same argument
returns that very cached result, performing no query against the buddy list,
the chat list or the user directory, even if the native client state has
changed in between; in particular both calls return equal results. -/
theorem build_identifier_memoized (sk sk' : Skype)
    (cache c2 : List (String × BuiltIdentifier)) (qs : List Query)
    (t : String) (v : BuiltIdentifier)
    (h : build_identifier sk cache t = (Except.ok v, c2, qs)) :
    build_identifier sk' c2 t = (Except.ok v, c2, []) := by
  unfold build_identifier at h ⊢
  cases hl : cache.lookup t with
  | some w =>
    rw [hl] at h
    simp only [Prod.mk.injEq, Except.ok.injEq] at h
    obtain ⟨rfl, rfl, -⟩ := h
    rw [hl]
  | none =>
    rw [hl] at h
    cases hraw : build_identifier_raw sk t with
    | mk r qs' =>
      rw [hraw] at h
      cases r with
      | ok w =>
        simp only [Prod.mk.injEq, Except.ok.injEq] at h
        obtain ⟨rfl, rfl, -⟩ := h
        simp [List.lookup]
      | error e =>
        simp at h

/-- Witness for C5: a first call resolves alice from the buddy list and caches
the identifier; the second call, against a client state where the buddy list is
empty, still returns the cached identifier with no queries. -/
theorem build_identifier_memoized_witness :
    build_identifier sampleSkypeEmpty
        [("alice", BuiltIdentifier.user (SkypeUser.mk (sampleUser "alice")))] "alice" =
      (Except.ok (BuiltIdentifier.user (SkypeUser.mk (sampleUser "alice"))),
       [("alice", BuiltIdentifier.user (SkypeUser.mk (sampleUser "alice")))], []) :=
  build_identifier_memoized sampleSkype sampleSkypeEmpty []
    [("alice", BuiltIdentifier.user (SkypeUser.mk (sampleUser "alice")))]
    [Query.friends] "alice"
    (BuiltIdentifier.user (SkypeUser.mk (sampleUser "alice"))) (by rfl)

end ErrbotSkype
